import Mathlib

/-!
Verification of the transcript-classification, message-formatting and
dispatch pipeline of the Civic.ai dashboard (`telynxstuff.py`), shallowly
embedded in Lean 4.

Modelling conventions:
* Python strings are Lean `String` values (lists of unicode scalars);
  `len`, slicing and concatenation act on the character list.
* Regular-expression character classes are modelled by their ASCII
  semantics: `\d` is `Char.isDigit`, `\s` is the six ASCII whitespace
  characters, `[A-Za-z]` is `Char.isAlpha`; the anchors `^...$` of
  `re.match` are modelled as a whole-string match.  `str.lower`,
  `str.title`, `str.strip` and `str.isdigit` likewise use their ASCII
  semantics.
* The single outbound `requests.post` call of the dispatcher is modelled
  by a `NetOutcome` parameter describing what the network would do if the
  request were attempted; the boolean return value, the `st.error`
  message and whether the request was attempted are all recorded in the
  result so that control flow is fully observable.
-/

namespace Civic

/-- Python `\s` on its ASCII range: space, tab, newline, carriage
return, vertical tab and form feed. -/
def wsb (c : Char) : Bool :=
  c == ' ' || c == '\t' || c == '\n' || c == '\r' || c == '\x0b' || c == '\x0c'

/-- A character of the class `[A-Za-z\s]` used by the location
patterns. -/
def locChar (c : Char) : Bool := c.isAlpha || wsb c

/-- Python `transcript.lower()` as a character list (`Char.toLower` is
exactly ASCII lowercasing). -/
def pyLower (s : String) : List Char := s.data.map Char.toLower

/-- Contiguous-substring test on character lists, scanning positions
from the left. -/
def isSubL (pat : List Char) : List Char → Bool
  | [] => pat.isEmpty
  | s@(_ :: rest) => pat.isPrefixOf s || isSubL pat rest

/-- The membership test `keyword in transcript_lower` (substring
containment). -/
def kwMatch (tl : List Char) (k : String) : Bool := isSubL k.data tl

/-- `any(keyword in transcript_lower for keyword in keywords)`. -/
def anyKw (tl : List Char) (kws : List String) : Bool := kws.any (kwMatch tl)

/-- The `issue_keywords` dict of `extract_civic_info`, in insertion
order (which is the iteration order of a Python dict). -/
def issue_keywords : List (String × List String) :=
  [("infrastructure", ["road", "bridge", "water", "electricity", "power", "drainage"]),
   ("security", ["crime", "theft", "violence", "unsafe", "robbery", "security"]),
   ("health", ["hospital", "clinic", "medical", "health", "disease", "sanitation"]),
   ("education", ["school", "teacher", "education", "student", "classroom"]),
   ("waste", ["garbage", "waste", "dump", "refuse", "sanitation", "dirty"]),
   ("other", [])]

/-- The `priority_keywords` dict of `extract_civic_info`, in insertion
order. -/
def priority_keywords : List (String × List String) :=
  [("urgent", ["emergency", "urgent", "immediate", "critical", "danger"]),
   ("high", ["serious", "important", "major", "significant"]),
   ("medium", ["moderate", "concern", "issue"]),
   ("low", ["minor", "small", "slight"])]

/-- The `for label, keywords in table.items(): if any(...): ...; break`
loop of `extract_civic_info`: the first label whose keyword set matches
wins, otherwise the initial value `dflt` is kept. -/
def firstLabel (dflt : String) : List (String × List String) → List Char → String
  | [], _ => dflt
  | (c, kws) :: rest, tl => if anyKw tl kws then c else firstLabel dflt rest tl

/-- One attempt of the regex `LIT\s+([A-Za-z\s]+)` at the text position
directly after an occurrence of the literal; `rest` is the remaining
text.  Let `run` be the maximal `[A-Za-z\s]` run at that position.  The
attempt succeeds iff the first character is whitespace (for `\s+`) and
`run` has at least two characters; the greedy `\s+` then takes the
whitespace prefix of the run and the captured group is the remainder,
except that when the whole run is whitespace, backtracking gives the
group the last character of the run. -/
def groupAt (rest : List Char) : Option (List Char) :=
  match rest with
  | [] => none
  | c :: _ =>
    if wsb c then
      let run := rest.takeWhile locChar
      if 2 ≤ run.length then
        let g := run.dropWhile wsb
        if g.isEmpty then some [run.getLastD ' '] else some g
      else none
    else none

/-- Try the pattern `LIT\s+([A-Za-z\s]+)` at the start of `s`. -/
def tryAt (lit : List Char) (s : List Char) : Option (List Char) :=
  if lit.isPrefixOf s then groupAt (s.drop lit.length) else none

/-- Leftmost match of `LIT\s+([A-Za-z\s]+)` in a text, scanning
positions from the left exactly as the regex engine does; the code only
uses `matches[0]` and the emptiness of `re.findall`, so the leftmost
match is all that is needed. -/
def scanFor (lit : List Char) : List Char → Option (List Char)
  | [] => none
  | s@(_ :: rest) =>
    match tryAt lit s with
    | some g => some g
    | none => scanFor lit rest

/-- Python `str.strip()` on a character list. -/
def pyStripL (l : List Char) : List Char :=
  ((l.dropWhile wsb).reverse.dropWhile wsb).reverse

/-- Worker for Python `str.title()`: uppercase a cased character at a
word start, lowercase it elsewhere; `b` records whether the previous
character was uncased (a word boundary). -/
def titleGo : Bool → List Char → List Char
  | _, [] => []
  | b, c :: cs =>
    if c.isAlpha then (if b then c.toUpper else c.toLower) :: titleGo false cs
    else c :: titleGo true cs

/-- Python `str.title()` (ASCII model). -/
def strTitle (s : String) : String := String.mk (titleGo true s.data)

/-- The `location_patterns` list of `extract_civic_info`: each literal
`LIT` stands for the regex `LIT\s+([A-Za-z\s]+)`. -/
def location_patterns : List (List Char) :=
  ["in".data, "at".data, "from".data, "area".data]

/-- The location-extraction loop of `extract_civic_info`: the first
pattern whose `re.findall` is nonempty wins and yields
`matches[0].strip().title()`; otherwise the sentinel is returned. -/
def locFromPatterns : List (List Char) → List Char → String
  | [], _ => "Location not specified"
  | p :: ps, s =>
    match scanFor p s with
    | some g => String.mk (titleGo true (pyStripL g))
    | none => locFromPatterns ps s

/-- The structured record returned by `extract_civic_info`. -/
structure CivicReport where
  category : String
  priority : String
  location : String
  summary : String
  full_transcript : String
deriving DecidableEq, Repr

/-- `extract_civic_info`: category and priority by first-match keyword
lookup over the lowercased transcript, location by the pattern loop over
the original-case transcript, summary `transcript[:200] + "..."` only
when `len(transcript) > 200`. -/
def extract_civic_info (transcript : String) : CivicReport :=
  let tl := pyLower transcript
  { category := firstLabel "other" issue_keywords tl
    priority := firstLabel "medium" priority_keywords tl
    location := locFromPatterns location_patterns transcript.data
    summary :=
      if transcript.length > 200 then String.mk (transcript.data.take 200) ++ "..."
      else transcript
    full_transcript := transcript }

/-- Position of a category label in the fixed declaration order of
`issue_keywords`; labels outside the table sort last. -/
def catIdx (c : String) : Nat :=
  if c = "infrastructure" then 0 else if c = "security" then 1
  else if c = "health" then 2 else if c = "education" then 3
  else if c = "waste" then 4 else 5

/-- Whether some keyword of category `c` occurs in the lowercased
transcript `t`. -/
def categoryMatches (c t : String) : Bool :=
  anyKw (pyLower t) ((issue_keywords.lookup c).getD [])

/-- Position of a priority label in the fixed declaration order of
`priority_keywords`; labels outside the table sort last. -/
def priIdx (p : String) : Nat :=
  if p = "urgent" then 0 else if p = "high" then 1
  else if p = "medium" then 2 else if p = "low" then 3 else 4

/-- Whether some keyword of priority `p` occurs in the lowercased
transcript `t`. -/
def priorityMatches (p t : String) : Bool :=
  anyKw (pyLower t) ((priority_keywords.lookup p).getD [])

/-- Claim C1: the classifier tests the categories in the fixed
declaration order infrastructure, security, health, education, waste;
the first category with a case-insensitive keyword match wins (in
particular, of two matching categories the earlier one is returned),
and with no match at all the category is `other`. -/
theorem claim1_category_order :
    (∀ t c, categoryMatches c t = true →
        (∀ c2, categoryMatches c2 t = true → catIdx c ≤ catIdx c2) →
        (extract_civic_info t).category = c) ∧
    (∀ t, (∀ c, categoryMatches c t = false) →
        (extract_civic_info t).category = "other") := by
  have e0 : ∀ t, categoryMatches "infrastructure" t =
      anyKw (pyLower t) ["road", "bridge", "water", "electricity", "power", "drainage"] :=
    fun _ => rfl
  have e1 : ∀ t, categoryMatches "security" t =
      anyKw (pyLower t) ["crime", "theft", "violence", "unsafe", "robbery", "security"] :=
    fun _ => rfl
  have e2 : ∀ t, categoryMatches "health" t =
      anyKw (pyLower t) ["hospital", "clinic", "medical", "health", "disease", "sanitation"] :=
    fun _ => rfl
  have e3 : ∀ t, categoryMatches "education" t =
      anyKw (pyLower t) ["school", "teacher", "education", "student", "classroom"] :=
    fun _ => rfl
  have e4 : ∀ t, categoryMatches "waste" t =
      anyKw (pyLower t) ["garbage", "waste", "dump", "refuse", "sanitation", "dirty"] :=
    fun _ => rfl
  constructor
  · intro t c hc hmin
    show firstLabel "other" issue_keywords (pyLower t) = c
    by_cases h0 : anyKw (pyLower t) ["road", "bridge", "water", "electricity", "power", "drainage"] = true
    · have hmin0 := hmin "infrastructure" ((e0 t).trans h0)
      rw [show catIdx "infrastructure" = 0 from rfl] at hmin0
      have hceq : c = "infrastructure" := by
        by_contra hne
        have h5 : 1 ≤ catIdx c := by
          unfold catIdx; rw [if_neg hne]; split_ifs <;> omega
        omega
      subst hceq
      simp [issue_keywords, firstLabel, h0]
    · rw [Bool.not_eq_true] at h0
      have hne0 : c ≠ "infrastructure" := by
        rintro rfl; rw [e0 t, h0] at hc; exact Bool.false_ne_true hc
      by_cases h1 : anyKw (pyLower t) ["crime", "theft", "violence", "unsafe", "robbery", "security"] = true
      · have hmin1 := hmin "security" ((e1 t).trans h1)
        rw [show catIdx "security" = 1 from rfl] at hmin1
        have hceq : c = "security" := by
          by_contra hne
          have h5 : 2 ≤ catIdx c := by
            unfold catIdx; rw [if_neg hne0, if_neg hne]; split_ifs <;> omega
          omega
        subst hceq
        simp [issue_keywords, firstLabel, h0, h1]
      · rw [Bool.not_eq_true] at h1
        have hne1 : c ≠ "security" := by
          rintro rfl; rw [e1 t, h1] at hc; exact Bool.false_ne_true hc
        by_cases h2 : anyKw (pyLower t) ["hospital", "clinic", "medical", "health", "disease", "sanitation"] = true
        · have hmin2 := hmin "health" ((e2 t).trans h2)
          rw [show catIdx "health" = 2 from rfl] at hmin2
          have hceq : c = "health" := by
            by_contra hne
            have h5 : 3 ≤ catIdx c := by
              unfold catIdx; rw [if_neg hne0, if_neg hne1, if_neg hne]; split_ifs <;> omega
            omega
          subst hceq
          simp [issue_keywords, firstLabel, h0, h1, h2]
        · rw [Bool.not_eq_true] at h2
          have hne2 : c ≠ "health" := by
            rintro rfl; rw [e2 t, h2] at hc; exact Bool.false_ne_true hc
          by_cases h3 : anyKw (pyLower t) ["school", "teacher", "education", "student", "classroom"] = true
          · have hmin3 := hmin "education" ((e3 t).trans h3)
            rw [show catIdx "education" = 3 from rfl] at hmin3
            have hceq : c = "education" := by
              by_contra hne
              have h5 : 4 ≤ catIdx c := by
                unfold catIdx
                rw [if_neg hne0, if_neg hne1, if_neg hne2, if_neg hne]
                split_ifs <;> omega
              omega
            subst hceq
            simp [issue_keywords, firstLabel, h0, h1, h2, h3]
          · rw [Bool.not_eq_true] at h3
            have hne3 : c ≠ "education" := by
              rintro rfl; rw [e3 t, h3] at hc; exact Bool.false_ne_true hc
            by_cases h4 : anyKw (pyLower t) ["garbage", "waste", "dump", "refuse", "sanitation", "dirty"] = true
            · have hmin4 := hmin "waste" ((e4 t).trans h4)
              rw [show catIdx "waste" = 4 from rfl] at hmin4
              have hceq : c = "waste" := by
                by_contra hne
                have h5 : 5 ≤ catIdx c := by
                  unfold catIdx
                  rw [if_neg hne0, if_neg hne1, if_neg hne2, if_neg hne3, if_neg hne]
                omega
              subst hceq
              simp [issue_keywords, firstLabel, h0, h1, h2, h3, h4]
            · rw [Bool.not_eq_true] at h4
              exfalso
              have hfalse : categoryMatches c t = false := by
                by_cases k0 : c = "infrastructure"
                · subst k0; rw [e0 t]; exact h0
                by_cases k1 : c = "security"
                · subst k1; rw [e1 t]; exact h1
                by_cases k2 : c = "health"
                · subst k2; rw [e2 t]; exact h2
                by_cases k3 : c = "education"
                · subst k3; rw [e3 t]; exact h3
                by_cases k4 : c = "waste"
                · subst k4; rw [e4 t]; exact h4
                by_cases k5 : c = "other"
                · subst k5; rfl
                · have b0 := beq_eq_false_iff_ne.mpr k0
                  have b1 := beq_eq_false_iff_ne.mpr k1
                  have b2 := beq_eq_false_iff_ne.mpr k2
                  have b3 := beq_eq_false_iff_ne.mpr k3
                  have b4 := beq_eq_false_iff_ne.mpr k4
                  have b5 := beq_eq_false_iff_ne.mpr k5
                  simp [categoryMatches, issue_keywords, List.lookup, b0, b1, b2, b3, b4, b5, anyKw]
              rw [hfalse] at hc
              exact Bool.false_ne_true hc
  · intro t hall
    show firstLabel "other" issue_keywords (pyLower t) = "other"
    have h0 := (e0 t).symm.trans (hall "infrastructure")
    have h1 := (e1 t).symm.trans (hall "security")
    have h2 := (e2 t).symm.trans (hall "health")
    have h3 := (e3 t).symm.trans (hall "education")
    have h4 := (e4 t).symm.trans (hall "waste")
    simp [issue_keywords, firstLabel, h0, h1, h2, h3, h4]

/-- Witness for C1 at a transcript matching both an infrastructure
keyword (water) and a security keyword (theft): the earlier category
wins. -/
theorem claim1_witness : (extract_civic_info "water theft").category = "infrastructure" :=
  claim1_category_order.1 "water theft" "infrastructure" (by decide)
    (fun c2 _ => by rw [show catIdx "infrastructure" = 0 from rfl]; exact Nat.zero_le _)

/-- Claim C8: the priorities are tested in the fixed order urgent,
high, medium, low; the first priority with a keyword match wins, and
with no match at all the priority is `medium`. -/
theorem claim8_priority_order :
    (∀ t p, priorityMatches p t = true →
        (∀ p2, priorityMatches p2 t = true → priIdx p ≤ priIdx p2) →
        (extract_civic_info t).priority = p) ∧
    (∀ t, (∀ p, priorityMatches p t = false) →
        (extract_civic_info t).priority = "medium") := by
  have e0 : ∀ t, priorityMatches "urgent" t =
      anyKw (pyLower t) ["emergency", "urgent", "immediate", "critical", "danger"] :=
    fun _ => rfl
  have e1 : ∀ t, priorityMatches "high" t =
      anyKw (pyLower t) ["serious", "important", "major", "significant"] :=
    fun _ => rfl
  have e2 : ∀ t, priorityMatches "medium" t =
      anyKw (pyLower t) ["moderate", "concern", "issue"] :=
    fun _ => rfl
  have e3 : ∀ t, priorityMatches "low" t =
      anyKw (pyLower t) ["minor", "small", "slight"] :=
    fun _ => rfl
  constructor
  · intro t p hp hmin
    show firstLabel "medium" priority_keywords (pyLower t) = p
    by_cases h0 : anyKw (pyLower t) ["emergency", "urgent", "immediate", "critical", "danger"] = true
    · have hmin0 := hmin "urgent" ((e0 t).trans h0)
      rw [show priIdx "urgent" = 0 from rfl] at hmin0
      have hpeq : p = "urgent" := by
        by_contra hne
        have h5 : 1 ≤ priIdx p := by
          unfold priIdx; rw [if_neg hne]; split_ifs <;> omega
        omega
      subst hpeq
      simp [priority_keywords, firstLabel, h0]
    · rw [Bool.not_eq_true] at h0
      have hne0 : p ≠ "urgent" := by
        rintro rfl; rw [e0 t, h0] at hp; exact Bool.false_ne_true hp
      by_cases h1 : anyKw (pyLower t) ["serious", "important", "major", "significant"] = true
      · have hmin1 := hmin "high" ((e1 t).trans h1)
        rw [show priIdx "high" = 1 from rfl] at hmin1
        have hpeq : p = "high" := by
          by_contra hne
          have h5 : 2 ≤ priIdx p := by
            unfold priIdx; rw [if_neg hne0, if_neg hne]; split_ifs <;> omega
          omega
        subst hpeq
        simp [priority_keywords, firstLabel, h0, h1]
      · rw [Bool.not_eq_true] at h1
        have hne1 : p ≠ "high" := by
          rintro rfl; rw [e1 t, h1] at hp; exact Bool.false_ne_true hp
        by_cases h2 : anyKw (pyLower t) ["moderate", "concern", "issue"] = true
        · have hmin2 := hmin "medium" ((e2 t).trans h2)
          rw [show priIdx "medium" = 2 from rfl] at hmin2
          have hpeq : p = "medium" := by
            by_contra hne
            have h5 : 3 ≤ priIdx p := by
              unfold priIdx; rw [if_neg hne0, if_neg hne1, if_neg hne]; split_ifs <;> omega
            omega
          subst hpeq
          simp [priority_keywords, firstLabel, h0, h1, h2]
        · rw [Bool.not_eq_true] at h2
          have hne2 : p ≠ "medium" := by
            rintro rfl; rw [e2 t, h2] at hp; exact Bool.false_ne_true hp
          by_cases h3 : anyKw (pyLower t) ["minor", "small", "slight"] = true
          · have hmin3 := hmin "low" ((e3 t).trans h3)
            rw [show priIdx "low" = 3 from rfl] at hmin3
            have hpeq : p = "low" := by
              by_contra hne
              have h5 : 4 ≤ priIdx p := by
                unfold priIdx; rw [if_neg hne0, if_neg hne1, if_neg hne2, if_neg hne]
              omega
            subst hpeq
            simp [priority_keywords, firstLabel, h0, h1, h2, h3]
          · rw [Bool.not_eq_true] at h3
            exfalso
            have hfalse : priorityMatches p t = false := by
              by_cases k0 : p = "urgent"
              · subst k0; rw [e0 t]; exact h0
              by_cases k1 : p = "high"
              · subst k1; rw [e1 t]; exact h1
              by_cases k2 : p = "medium"
              · subst k2; rw [e2 t]; exact h2
              by_cases k3 : p = "low"
              · subst k3; rw [e3 t]; exact h3
              · have b0 := beq_eq_false_iff_ne.mpr k0
                have b1 := beq_eq_false_iff_ne.mpr k1
                have b2 := beq_eq_false_iff_ne.mpr k2
                have b3 := beq_eq_false_iff_ne.mpr k3
                simp [priorityMatches, priority_keywords, List.lookup, b0, b1, b2, b3, anyKw]
            rw [hfalse] at hp
            exact Bool.false_ne_true hp
  · intro t hall
    show firstLabel "medium" priority_keywords (pyLower t) = "medium"
    have h0 := (e0 t).symm.trans (hall "urgent")
    have h1 := (e1 t).symm.trans (hall "high")
    have h2 := (e2 t).symm.trans (hall "medium")
    have h3 := (e3 t).symm.trans (hall "low")
    simp [priority_keywords, firstLabel, h0, h1, h2, h3]

/-- Witness for C8 at a transcript matching both an urgent keyword
(emergency) and a high keyword (serious): the earlier priority wins. -/
theorem claim8_witness : (extract_civic_info "serious emergency").priority = "urgent" :=
  claim8_priority_order.1 "serious emergency" "urgent" (by decide)
    (fun p2 _ => by rw [show priIdx "urgent" = 0 from rfl]; exact Nat.zero_le _)

/-- Claim C2: the round-trip scenario.  The sample transcript is
classified as infrastructure and urgent, its location is extracted as
"Malali Area" by the first location pattern, and its summary is the
full transcript (length 74, under 200). -/
theorem claim2_roundtrip :
    extract_civic_info "Emergency! Major water pipe burst in Malali area, urgent attention needed" =
      { category := "infrastructure", priority := "urgent", location := "Malali Area",
        summary := "Emergency! Major water pipe burst in Malali area, urgent attention needed",
        full_transcript := "Emergency! Major water pipe burst in Malali area, urgent attention needed" } := by
  decide

/-- Claim C3: a transcript longer than 200 characters is summarised by
its first 200 characters followed by the three-character ellipsis
marker, giving length exactly 203; a transcript of length at most 200
is its own summary. -/
theorem claim3_summary_truncation (t : String) :
    (200 < t.length →
        (extract_civic_info t).summary.length = 203 ∧
        (extract_civic_info t).summary = String.mk (t.data.take 200) ++ "...") ∧
    (t.length ≤ 200 → (extract_civic_info t).summary = t) := by
  have hs : (extract_civic_info t).summary =
      (if t.length > 200 then String.mk (t.data.take 200) ++ "..." else t) := rfl
  constructor
  · intro h
    rw [hs, if_pos h]
    refine ⟨?_, rfl⟩
    rw [String.length_append]
    have h1 : (String.mk (t.data.take 200)).length = (t.data.take 200).length := rfl
    have h2 : ("..." : String).length = 3 := rfl
    have h3 : t.length = t.data.length := rfl
    rw [h1, h2, List.length_take]
    rw [h3] at h
    omega
  · intro h
    rw [hs, if_neg (by omega)]

set_option maxRecDepth 4000 in
/-- Witness for C3 at a concrete 201-character transcript. -/
theorem claim3_witness :
    (extract_civic_info (String.mk (List.replicate 201 'a'))).summary.length = 203 :=
  ((claim3_summary_truncation (String.mk (List.replicate 201 'a'))).1 (by decide)).1

/-- Claim C9: the classifier is total and maps the empty transcript to
category `other`, priority `medium`, the location sentinel and the
empty summary. -/
theorem claim9_empty_transcript :
    extract_civic_info "" =
      { category := "other", priority := "medium", location := "Location not specified",
        summary := "", full_transcript := "" } := by
  decide

/-- A character of the token-body class `[A-Za-z0-9_-]`. -/
def tokenBodyChar (c : Char) : Bool := c.isAlpha || c.isDigit || c == '_' || c == '-'

/-- The part `[A-Za-z0-9_-]+$` of the token pattern, applied to the
text after the colon: a nonempty greedy run of token-body characters
followed by the `$` anchor, which in Python matches at the end of the
string or just before one trailing newline.  Backtracking cannot help
the anchor (giving characters back only moves the position further from
the end), so the run is exactly the maximal one and the remainder must
be empty or a single final newline. -/
def tokenBodyMatch (body : List Char) : Bool :=
  !(body.takeWhile tokenBodyChar).isEmpty &&
    ((body.dropWhile tokenBodyChar).isEmpty || body.dropWhile tokenBodyChar == ['\n'])

/-- `validate_telegram_token`: the emptiness check, then
`re.match(r'^\d+:[A-Za-z0-9_-]+$', token)` — a nonempty digit run, a
colon, and `tokenBodyMatch` for the rest; the `$` anchor therefore also
accepts one trailing newline after the body.  Because a colon is
neither a digit nor a body character, the greedy `\d+` is exactly the
maximal digit run. -/
def validate_telegram_token (token : String) : Bool :=
  if token = "" then false
  else
    let digits := token.data.takeWhile Char.isDigit
    let rest := token.data.dropWhile Char.isDigit
    !digits.isEmpty &&
      (match rest with
       | c :: body => c == ':' && tokenBodyMatch body
       | [] => false)

/-- `validate_chat_id`: the emptiness check, then
`chat_id.isdigit() or chat_id.startswith('-')` (ASCII digit model). -/
def validate_chat_id (chat_id : String) : Bool :=
  if chat_id = "" then false
  else
    (!chat_id.data.isEmpty && chat_id.data.all Char.isDigit) ||
      (match chat_id.data with
       | c :: _ => c == '-'
       | [] => false)

/-- The outcome the single `requests.post` call would have if it were
attempted: a provider response with status code and body text, a
timeout, or any other exception.  The network is a parameter of the
model. -/
inductive NetOutcome where
  | response (status : Nat) (body : String)
  | timeout
  | exception (details : String)
deriving DecidableEq

/-- Everything observable from one `send_to_telegram` call: the boolean
value returned to the caller, the `st.error` message if one is shown,
and whether the outbound request was attempted. -/
structure SendOutcome where
  returned : Bool
  errorShown : Option String
  networkAttempted : Bool
deriving DecidableEq

set_option linter.unusedVariables false in
/-- `send_to_telegram`: validate the token, then the chat id, and only
then perform the single network request; a 200 status returns `True`
and every failure returns `False` after showing an `st.error`
message.  The message text only goes into the request payload, which
the model does not inspect. -/
def send_to_telegram (message token chat_id : String) (net : NetOutcome) : SendOutcome :=
  if !validate_telegram_token token then
    { returned := false, errorShown := some "Invalid Telegram bot token format",
      networkAttempted := false }
  else if !validate_chat_id chat_id then
    { returned := false, errorShown := some "Invalid Telegram chat ID format",
      networkAttempted := false }
  else
    match net with
    | NetOutcome.response status body =>
      if status == 200 then
        { returned := true, errorShown := none, networkAttempted := true }
      else
        { returned := false,
          errorShown := some ("Telegram API Error: " ++ toString status ++ " - " ++ body),
          networkAttempted := true }
    | NetOutcome.timeout =>
      { returned := false, errorShown := some "Request timed out. Please try again.",
        networkAttempted := true }
    | NetOutcome.exception details =>
      { returned := false, errorShown := some ("Telegram Error: " ++ details),
        networkAttempted := true }

lemma all_takeWhile (p : Char → Bool) (l : List Char) : (l.takeWhile p).all p = true := by
  induction l with
  | nil => rfl
  | cons a t ih =>
    by_cases h : p a = true
    · simp [List.takeWhile_cons, h, ih]
    · simp [List.takeWhile_cons, h]

lemma takeWhile_append_all (p : Char → Bool) (l1 l2 : List Char) (h : l1.all p = true) :
    (l1 ++ l2).takeWhile p = l1 ++ l2.takeWhile p := by
  induction l1 with
  | nil => simp
  | cons a t ih =>
    simp only [List.all_cons, Bool.and_eq_true] at h
    simp [List.takeWhile_cons, h.1, ih h.2]

lemma dropWhile_append_all (p : Char → Bool) (l1 l2 : List Char) (h : l1.all p = true) :
    (l1 ++ l2).dropWhile p = l2.dropWhile p := by
  induction l1 with
  | nil => simp
  | cons a t ih =>
    simp only [List.all_cons, Bool.and_eq_true] at h
    simp [List.dropWhile_cons, h.1, ih h.2]

lemma takeWhile_of_all (p : Char → Bool) (l : List Char) (h : l.all p = true) :
    l.takeWhile p = l := by
  have h2 := takeWhile_append_all p l [] h
  simpa using h2

lemma dropWhile_of_all (p : Char → Bool) (l : List Char) (h : l.all p = true) :
    l.dropWhile p = [] := by
  have h2 := dropWhile_append_all p l [] h
  simpa using h2

lemma tokenBodyMatch_of_all (body : List Char) (hb : body ≠ [])
    (hbc : body.all tokenBodyChar = true) :
    tokenBodyMatch body = true := by
  unfold tokenBodyMatch
  rw [takeWhile_of_all _ _ hbc, dropWhile_of_all _ _ hbc]
  simp [List.isEmpty_iff, hb]

lemma tokenBodyMatch_of_all_newline (body : List Char) (hb : body ≠ [])
    (hbc : body.all tokenBodyChar = true) :
    tokenBodyMatch (body ++ ['\n']) = true := by
  unfold tokenBodyMatch
  rw [takeWhile_append_all _ _ _ hbc, dropWhile_append_all _ _ _ hbc]
  have h1 : List.takeWhile tokenBodyChar ['\n'] = [] := by decide
  have h2 : List.dropWhile tokenBodyChar ['\n'] = ['\n'] := by decide
  rw [h1, h2]
  simp [List.isEmpty_iff, hb]

/-- Counterexample to C4: the program accepts the token `123:abc`
followed by a newline, which is not of the form digits, colon,
token-body characters — the newline belongs to none of the classes of
the pattern — because the `$` anchor of `re.match` also matches just
before one trailing newline.  So "token validation requires a non-empty
string matching digits:token-body" is false of the code. -/
theorem claim4_counterexample :
    validate_telegram_token "123:abc\n" = true ∧
    ¬∃ a b : List Char, ("123:abc\n" : String).data = a ++ ':' :: b ∧ a ≠ [] ∧
      a.all Char.isDigit = true ∧ b ≠ [] ∧ b.all tokenBodyChar = true := by
  constructor
  · decide
  · rintro ⟨a, b, hdata, -, had, -, hbc⟩
    have hmem : '\n' ∈ a ++ ':' :: b := by
      rw [← hdata]
      decide
    rcases List.mem_append.mp hmem with h | h
    · have hdig := (List.all_eq_true.mp had) '\n' h
      exact absurd hdig (by decide)
    · rcases List.mem_cons.mp h with h | h
      · exact absurd h (by decide)
      · have hbody := (List.all_eq_true.mp hbc) '\n' h
        exact absurd hbody (by decide)

/-- Amended claim C4: the sample credentials pass both validations; a
malformed token or chat id makes `send_to_telegram` fail with the
invalid-credential outcome for every possible network behaviour, hence
before any network request; token validation accepts exactly the
nonempty strings of the form digits, colon, token-body characters,
optionally followed by one trailing newline (the `$` anchor of the
pattern); and an invalid credential always suppresses the network
attempt. -/
theorem claim4_credential_validation :
    validate_telegram_token "123:AbC-1_2" = true ∧
    validate_chat_id "-100200300" = true ∧
    (∀ msg net, send_to_telegram msg "abc" "-100200300" net =
      { returned := false, errorShown := some "Invalid Telegram bot token format",
        networkAttempted := false }) ∧
    (∀ msg net, send_to_telegram msg "123:AbC-1_2" "abc" net =
      { returned := false, errorShown := some "Invalid Telegram chat ID format",
        networkAttempted := false }) ∧
    (∀ tok, validate_telegram_token tok = true ↔
      ∃ a body : List Char,
        (tok.data = a ++ ':' :: body ∨ tok.data = a ++ ':' :: (body ++ ['\n'])) ∧
        a ≠ [] ∧ a.all Char.isDigit = true ∧ body ≠ [] ∧ body.all tokenBodyChar = true) ∧
    (∀ msg tok cid net,
      validate_telegram_token tok = false ∨ validate_chat_id cid = false →
      (send_to_telegram msg tok cid net).networkAttempted = false) := by
  refine ⟨by decide, by decide, ?_, ?_, ?_, ?_⟩
  · intro msg net
    have h : validate_telegram_token "abc" = false := by decide
    simp [send_to_telegram, h]
  · intro msg net
    have h1 : validate_telegram_token "123:AbC-1_2" = true := by decide
    have h2 : validate_chat_id "abc" = false := by decide
    simp [send_to_telegram, h1, h2]
  · intro tok
    constructor
    · intro h
      unfold validate_telegram_token at h
      by_cases he : tok = ""
      · rw [if_pos he] at h; exact absurd h (by decide)
      rw [if_neg he] at h
      simp only [Bool.and_eq_true, Bool.not_eq_true'] at h
      obtain ⟨hd, hrest⟩ := h
      cases hm : tok.data.dropWhile Char.isDigit with
      | nil => rw [hm] at hrest; exact absurd hrest (by decide)
      | cons c body =>
        rw [hm] at hrest
        simp only [Bool.and_eq_true, beq_iff_eq] at hrest
        obtain ⟨hc, hbm⟩ := hrest
        subst hc
        unfold tokenBodyMatch at hbm
        simp only [Bool.and_eq_true, Bool.or_eq_true, Bool.not_eq_true'] at hbm
        obtain ⟨hrun, hend⟩ := hbm
        have hsplit : tok.data = tok.data.takeWhile Char.isDigit ++ ':' :: body := by
          conv_lhs => rw [← List.takeWhile_append_dropWhile Char.isDigit tok.data]
          rw [hm]
        refine ⟨tok.data.takeWhile Char.isDigit, body.takeWhile tokenBodyChar, ?_, ?_,
          all_takeWhile _ _, ?_, all_takeWhile _ _⟩
        · cases hend with
          | inl hnil =>
            left
            have hbody : body.takeWhile tokenBodyChar = body := by
              conv_rhs => rw [← List.takeWhile_append_dropWhile tokenBodyChar body]
              rw [List.isEmpty_iff.mp hnil]
              simp
            rw [hbody]
            exact hsplit
          | inr hnl =>
            right
            have hdnl : body.dropWhile tokenBodyChar = ['\n'] := beq_iff_eq.mp hnl
            have hbody : body.takeWhile tokenBodyChar ++ ['\n'] = body := by
              conv_rhs => rw [← List.takeWhile_append_dropWhile tokenBodyChar body]
              rw [hdnl]
            rw [hbody]
            exact hsplit
        · intro hnil
          rw [hnil] at hd
          exact absurd hd (by decide)
        · intro hnil
          rw [hnil] at hrun
          exact absurd hrun (by decide)
    · rintro ⟨a, body, hshape, ha, had, hb, hbc⟩
      cases hshape with
      | inl hdata =>
        have he : tok ≠ "" := by
          intro h
          rw [h] at hdata
          have h0 : ([] : List Char) = a ++ ':' :: body := hdata
          simp at h0
        unfold validate_telegram_token
        rw [if_neg he]
        have htw : tok.data.takeWhile Char.isDigit = a := by
          rw [hdata, takeWhile_append_all _ _ _ had]
          simp [List.takeWhile_cons]
        have hdw : tok.data.dropWhile Char.isDigit = ':' :: body := by
          rw [hdata, dropWhile_append_all _ _ _ had]
          simp [List.dropWhile_cons]
        simp only [htw, hdw]
        simp [List.isEmpty_iff, ha, tokenBodyMatch_of_all body hb hbc]
      | inr hdata =>
        have he : tok ≠ "" := by
          intro h
          rw [h] at hdata
          have h0 : ([] : List Char) = a ++ ':' :: (body ++ ['\n']) := hdata
          simp at h0
        unfold validate_telegram_token
        rw [if_neg he]
        have htw : tok.data.takeWhile Char.isDigit = a := by
          rw [hdata, takeWhile_append_all _ _ _ had]
          simp [List.takeWhile_cons]
        have hdw : tok.data.dropWhile Char.isDigit = ':' :: (body ++ ['\n']) := by
          rw [hdata, dropWhile_append_all _ _ _ had]
          simp [List.dropWhile_cons]
        simp only [htw, hdw]
        simp [List.isEmpty_iff, ha, tokenBodyMatch_of_all_newline body hb hbc]
  · intro msg tok cid net h
    cases h with
    | inl h => simp [send_to_telegram, h]
    | inr h =>
      by_cases ht : validate_telegram_token tok = true
      · simp [send_to_telegram, ht, h]
      · rw [Bool.not_eq_true] at ht
        simp [send_to_telegram, ht]

/-- Witness for C4: with the malformed token the network request is
not attempted. -/
theorem claim4_witness :
    (send_to_telegram "m" "abc" "-100200300" NetOutcome.timeout).networkAttempted = false :=
  claim4_credential_validation.2.2.2.2.2 "m" "abc" "-100200300" NetOutcome.timeout
    (Or.inl (by decide))

/-- Counterexample to C7: the value returned to the caller does not
distinguish the failure kinds.  An invalid-credential failure, a
provider rejection (status 500), a timeout and a transport exception
all return the same caller-visible value `false`; only the displayed
error text differs, so the caller receives no tagged result. -/
theorem claim7_counterexample :
    (send_to_telegram "m" "abc" "-100200300" NetOutcome.timeout).returned = false ∧
    (send_to_telegram "m" "123:AbC-1_2" "-100200300" (NetOutcome.response 500 "err")).returned = false ∧
    (send_to_telegram "m" "123:AbC-1_2" "-100200300" NetOutcome.timeout).returned = false ∧
    (send_to_telegram "m" "123:AbC-1_2" "-100200300" (NetOutcome.exception "conn")).returned = false ∧
    (send_to_telegram "m" "abc" "-100200300" NetOutcome.timeout).returned =
      (send_to_telegram "m" "123:AbC-1_2" "-100200300" NetOutcome.timeout).returned := by
  decide

/-- Amended C7: every failure of `send_to_telegram` — malformed
credentials, provider rejection with a non-200 status, timeout, or
other transport failure — is reported back to the caller as the
boolean failure value `false` and never escapes as an uncontrolled
fault (the function is total over every network outcome); the call
succeeds, returning `true`, exactly when both credentials validate and
the provider answers with status 200, and every failure additionally
surfaces a diagnostic message through the error display, which — not
the returned value — is where the failure kinds differ. -/
theorem claim7_failure_reporting (msg tok cid : String) (net : NetOutcome) :
    ((send_to_telegram msg tok cid net).returned = true ↔
      (validate_telegram_token tok = true ∧ validate_chat_id cid = true ∧
        ∃ b, net = NetOutcome.response 200 b)) ∧
    ((send_to_telegram msg tok cid net).returned = false →
      ∃ e, (send_to_telegram msg tok cid net).errorShown = some e) := by
  by_cases ht : validate_telegram_token tok = true
  · by_cases hc : validate_chat_id cid = true
    · cases net with
      | response status body =>
        by_cases h200 : status = 200
        · subst h200
          constructor
          · simp [send_to_telegram, ht, hc]
          · intro h
            simp [send_to_telegram, ht, hc] at h
        · have hb : (status == 200) = false := by simp [h200]
          constructor
          · simp only [send_to_telegram, ht, hc, hb]
            simp [h200]
          · intro h
            simp only [send_to_telegram, ht, hc, hb]
            simp
      | timeout =>
        constructor
        · simp [send_to_telegram, ht, hc]
        · intro h
          simp [send_to_telegram, ht, hc]
      | exception details =>
        constructor
        · simp [send_to_telegram, ht, hc]
        · intro h
          simp [send_to_telegram, ht, hc]
    · rw [Bool.not_eq_true] at hc
      constructor
      · simp [send_to_telegram, ht, hc]
      · intro h
        simp [send_to_telegram, ht, hc]
  · rw [Bool.not_eq_true] at ht
    constructor
    · simp [send_to_telegram, ht]
    · intro h
      simp [send_to_telegram, ht]

/-- Witness for the amended C7: a timeout with valid credentials
returns `false` and surfaces an error message. -/
theorem claim7_witness :
    ∃ e, (send_to_telegram "m" "123:AbC-1_2" "-100200300" NetOutcome.timeout).errorShown = some e :=
  (claim7_failure_reporting "m" "123:AbC-1_2" "-100200300" NetOutcome.timeout).2 (by decide)

/-- Claim C10: chat-id validation accepts every nonempty string that
begins with a minus sign, whatever follows, so with a well-formed token
the dispatcher proceeds to the network attempt for such
destinations. -/
theorem claim10_dash_chat_id :
    (∀ s, s.data.head? = some '-' → validate_chat_id s = true) ∧
    validate_chat_id "-abc" = true ∧
    validate_chat_id "-" = true ∧
    (∀ msg s net, s.data.head? = some '-' →
      (send_to_telegram msg "123:AbC-1_2" s net).networkAttempted = true) := by
  have hv : ∀ s : String, s.data.head? = some '-' → validate_chat_id s = true := by
    intro s hs
    cases hd : s.data with
    | nil => rw [hd] at hs; exact absurd hs (by decide)
    | cons c rest =>
      rw [hd] at hs
      have hc : c = '-' := by
        simpa using hs
      have hne : s ≠ "" := by
        intro h
        rw [h] at hd
        exact absurd (hd : ([] : List Char) = c :: rest) (by simp)
      unfold validate_chat_id
      rw [if_neg hne, hd, hc]
      simp
  refine ⟨hv, by decide, by decide, ?_⟩
  intro msg s net hs
  have ht : validate_telegram_token "123:AbC-1_2" = true := by decide
  have hc := hv s hs
  cases net with
  | response status body =>
    by_cases h200 : (status == 200) = true
    · simp [send_to_telegram, ht, hc, h200]
    · rw [Bool.not_eq_true] at h200
      simp [send_to_telegram, ht, hc, h200]
  | timeout => simp [send_to_telegram, ht, hc]
  | exception details => simp [send_to_telegram, ht, hc]

/-- Witness for C10: the lone minus sign and a non-numeric dash string
pass validation and reach the network attempt. -/
theorem claim10_witness :
    (send_to_telegram "m" "123:AbC-1_2" "-abc" NetOutcome.timeout).networkAttempted = true :=
  claim10_dash_chat_id.2.2.2 "m" "-abc" NetOutcome.timeout (by decide)

/-- Call metadata as passed to `format_telegram_message`: `None` or a
dict, modelled as an association list from keys to the `str()` image of
the stored values. -/
def Metadata := Option (List (String × String))

/-- Python `dict.get(k, dflt)` on the association-list model. -/
def pyGet (d : List (String × String)) (k dflt : String) : String :=
  (d.lookup k).getD dflt

/-- The `category_emojis` dict of `format_telegram_message`. -/
def category_emojis : List (String × String) :=
  [("infrastructure", "🏗️"), ("security", "🚨"), ("health", "🏥"),
   ("education", "🎓"), ("waste", "🗑️"), ("other", "📝")]

/-- `category_emojis.get(category, "📝")`. -/
def category_emoji (c : String) : String := (category_emojis.lookup c).getD "📝"

/-- The `priority_emojis` dict of `format_telegram_message`. -/
def priority_emojis : List (String × String) :=
  [("urgent", "🔴"), ("high", "🟠"), ("medium", "🟡"), ("low", "🟢")]

/-- `priority_emojis.get(priority, "🟡")`. -/
def priority_emoji (p : String) : String := (priority_emojis.lookup p).getD "🟡"

/-- The call-duration slot of the message template:
`'📱 **Call Duration:** ' + str(call_metadata.get('duration', 'N/A')) + ' seconds'
if call_metadata else ''`.  A Python dict is falsy when it is `None` or
empty, so the slot is the empty string in both of those cases. -/
def durationLine (md : Option (List (String × String))) : String :=
  match md with
  | none => ""
  | some d =>
    if d.isEmpty then ""
    else "📱 **Call Duration:** " ++ pyGet d "duration" "N/A" ++ " seconds"

/-- The caller-id slot of the message template:
`'📞 **Caller ID:** ' + str(call_metadata.get('caller_id', 'N/A'))
if call_metadata else ''`, with the same dict-falsiness rule. -/
def callerLine (md : Option (List (String × String))) : String :=
  match md with
  | none => ""
  | some d =>
    if d.isEmpty then ""
    else "📞 **Caller ID:** " ++ pyGet d "caller_id" "N/A"

/-- The report identifier:
`timestamp.replace('-', '').replace(':', '').replace(' ', '-')` — the
hyphens and colons are deleted and each space becomes a hyphen. -/
def reportId (ts : String) : String :=
  String.mk
    (((ts.data.filter (fun c => !(c == '-'))).filter (fun c => !(c == ':'))).map
      (fun c => if c == ' ' then '-' else c))

/-- The first line of the f-string template (after its leading
newline), with the blank line that follows it. -/
def msgHeader : String := "🏛️ **CIVIC VOICE REPORT**\n\n"

/-- The body of the f-string template between `msgHeader` and the final
`*` of the report-id line, exactly in template order. -/
def msgBody (r : CivicReport) (md : Option (List (String × String))) (ts : String) : String :=
  category_emoji r.category ++ " **Category:** " ++ strTitle r.category ++ "\n"
    ++ priority_emoji r.priority ++ " **Priority:** " ++ strTitle r.priority ++ "\n"
    ++ "📍 **Location:** " ++ r.location ++ "\n"
    ++ "🕒 **Received:** " ++ ts ++ "\n\n"
    ++ "📞 **Report Summary:**\n" ++ r.summary ++ "\n\n"
    ++ durationLine md ++ "\n" ++ callerLine md ++ "\n\n"
    ++ "---\n*Report ID: CVC-" ++ reportId ts

/-- Python `str.strip()`. -/
def pyStrip (s : String) : String := String.mk (pyStripL s.data)

/-- `format_telegram_message`: the f-string template (which starts and
ends with a newline) followed by `.strip()`.  The generation timestamp
`datetime.now().strftime(...)` is a parameter of the model. -/
def format_telegram_message (civic_info : CivicReport)
    (call_metadata : Option (List (String × String))) (ts : String) : String :=
  pyStrip ("\n" ++ (msgHeader ++ msgBody civic_info call_metadata ts ++ "*") ++ "\n")

lemma headD_append_left (l1 l2 : List Char) (d : Char) (h : l1 ≠ []) :
    (l1 ++ l2).headD d = l1.headD d := by
  cases l1 with
  | nil => exact absurd rfl h
  | cons a t => rfl

lemma headD_reverse (l : List Char) (d : Char) : l.reverse.headD d = l.getLastD d := by
  induction l using List.reverseRecOn with
  | nil => rfl
  | append_singleton t a ih => simp [List.reverse_append, List.getLastD_concat]

lemma dropWhile_of_headD (l : List Char) (h : wsb (l.headD ' ') = false) :
    l.dropWhile wsb = l := by
  cases l with
  | nil => rfl
  | cons a t =>
    have ha : wsb a = false := by simpa using h
    simp [List.dropWhile_cons, ha]

/-- Stripping the template: a newline, a block that neither starts nor
ends with whitespace, and a newline strip to exactly the block. -/
lemma pyStripL_sandwich (l : List Char) (h0 : l ≠ [])
    (h1 : wsb (l.headD ' ') = false) (h2 : wsb (l.getLastD ' ') = false) :
    pyStripL ('\n' :: (l ++ ['\n'])) = l := by
  have hnl : wsb '\n' = true := by decide
  unfold pyStripL
  have s1 : List.dropWhile wsb ('\n' :: (l ++ ['\n'])) = l ++ ['\n'] := by
    rw [List.dropWhile_cons, if_pos hnl]
    apply dropWhile_of_headD
    rw [headD_append_left _ _ _ h0]
    exact h1
  rw [s1]
  have s2 : (l ++ ['\n']).reverse = '\n' :: l.reverse := by simp
  rw [s2, List.dropWhile_cons, if_pos hnl]
  have s3 : List.dropWhile wsb l.reverse = l.reverse := by
    apply dropWhile_of_headD
    rw [headD_reverse]
    exact h2
  rw [s3, List.reverse_reverse]

lemma str_ext {a b : String} (h : a.data = b.data) : a = b := by
  cases a
  cases b
  exact congrArg String.mk h

lemma str_assoc (a b c : String) : a ++ b ++ c = a ++ (b ++ c) :=
  str_ext (by simp [String.data_append])

/-- The outer `.strip()` of the template removes exactly the leading
and trailing newline of the f-string, for every report, metadata and
timestamp. -/
lemma format_eq_core (r : CivicReport) (md : Option (List (String × String)))
    (ts : String) :
    format_telegram_message r md ts = msgHeader ++ msgBody r md ts ++ "*" := by
  have hstar : ("*" : String).data = ['*'] := rfl
  have hnld : ("\n" : String).data = ['\n'] := rfl
  have hD : (msgHeader ++ msgBody r md ts ++ "*").data
      = (msgHeader.data ++ (msgBody r md ts).data) ++ ['*'] := by
    rw [String.data_append, String.data_append, hstar]
  have hA : msgHeader.data ≠ [] := by decide
  have hAB : msgHeader.data ++ (msgBody r md ts).data ≠ [] := by
    intro h
    exact hA (List.append_eq_nil.mp h).1
  have hne : (msgHeader ++ msgBody r md ts ++ "*").data ≠ [] := by
    rw [hD]
    simp
  have h1 : wsb ((msgHeader ++ msgBody r md ts ++ "*").data.headD ' ') = false := by
    rw [hD, headD_append_left _ _ _ hAB, headD_append_left _ _ _ hA]
    decide
  have h2 : wsb ((msgHeader ++ msgBody r md ts ++ "*").data.getLastD ' ') = false := by
    rw [hD, List.getLastD_concat]
    decide
  have hshape : ("\n" ++ (msgHeader ++ msgBody r md ts ++ "*") ++ "\n").data
      = '\n' :: ((msgHeader ++ msgBody r md ts ++ "*").data ++ ['\n']) := by
    rw [String.data_append, String.data_append, hnld]
    simp only [List.singleton_append, List.cons_append, List.nil_append]
  have hfd : format_telegram_message r md ts
      = pyStrip ("\n" ++ (msgHeader ++ msgBody r md ts ++ "*") ++ "\n") := rfl
  have hpd : ∀ s : String, (pyStrip s).data = pyStripL s.data := fun _ => rfl
  apply str_ext
  rw [hfd, hpd, hshape]
  exact pyStripL_sandwich _ hne h1 h2

set_option maxRecDepth 10000 in
/-- Counterexample to C5: with a metadata record that has no fields at
all (an empty dict, which is falsy in Python), the formatter omits the
metadata lines instead of rendering "N/A" — the sentinel appears
nowhere in the message, and the message coincides with the one produced
with no metadata record at all, so the omission is not "exactly when
the metadata record itself is absent". -/
theorem claim5_counterexample :
    isSubL "N/A".data
        (format_telegram_message
          { category := "other", priority := "medium", location := "Location not specified",
            summary := "", full_transcript := "" }
          (some []) "2025-01-02 03:04:05").data = false ∧
    format_telegram_message
        { category := "other", priority := "medium", location := "Location not specified",
          summary := "", full_transcript := "" }
        (some []) "2025-01-02 03:04:05" =
      format_telegram_message
        { category := "other", priority := "medium", location := "Location not specified",
          summary := "", full_transcript := "" }
        none "2025-01-02 03:04:05" := by
  constructor
  · decide
  · rfl

/-- Amended C5: the formatted message always carries the two metadata
slots in template position; both slots are empty when the metadata
record is absent or has no fields at all (Python dict falsiness), and
when the record is nonempty a missing duration or caller-id field is
rendered with the sentinel "N/A" on its line. -/
theorem claim5_metadata_lines (r : CivicReport) (md : Option (List (String × String)))
    (ts : String) :
    (∃ pre post, format_telegram_message r md ts
        = pre ++ (durationLine md ++ "\n" ++ callerLine md) ++ post) ∧
    durationLine none = "" ∧ callerLine none = "" ∧
    durationLine (some []) = "" ∧ callerLine (some []) = "" ∧
    (∀ d, d ≠ [] → d.lookup "duration" = none →
      durationLine (some d) = "📱 **Call Duration:** N/A seconds") ∧
    (∀ d, d ≠ [] → d.lookup "caller_id" = none →
      callerLine (some d) = "📞 **Caller ID:** N/A") := by
  refine ⟨?_, rfl, rfl, rfl, rfl, ?_, ?_⟩
  · refine ⟨msgHeader ++ (category_emoji r.category ++ " **Category:** " ++ strTitle r.category
      ++ "\n" ++ priority_emoji r.priority ++ " **Priority:** " ++ strTitle r.priority ++ "\n"
      ++ "📍 **Location:** " ++ r.location ++ "\n" ++ "🕒 **Received:** " ++ ts ++ "\n\n"
      ++ "📞 **Report Summary:**\n" ++ r.summary ++ "\n\n"),
      "\n\n" ++ "---\n*Report ID: CVC-" ++ reportId ts ++ "*", ?_⟩
    rw [format_eq_core]
    simp only [msgBody, str_assoc]
  · intro d hd hlook
    have hie : d.isEmpty = false := by
      cases d with
      | nil => exact absurd rfl hd
      | cons a t => rfl
    simp only [durationLine, hie, Bool.false_eq_true, if_false, pyGet, hlook, Option.getD]
    decide
  · intro d hd hlook
    have hie : d.isEmpty = false := by
      cases d with
      | nil => exact absurd rfl hd
      | cons a t => rfl
    simp only [callerLine, hie, Bool.false_eq_true, if_false, pyGet, hlook, Option.getD]
    decide

/-- Witness for the amended C5: a nonempty metadata record with only a
caller id gets the "N/A" duration rendering. -/
theorem claim5_witness :
    durationLine (some [("caller_id", "12345")]) = "📱 **Call Duration:** N/A seconds" :=
  (claim5_metadata_lines
      { category := "other", priority := "medium", location := "Location not specified",
        summary := "", full_transcript := "" }
      (some [("caller_id", "12345")]) "2025-01-02 03:04:05").2.2.2.2.2.1
    [("caller_id", "12345")] (by decide) (by decide)

/-- Modelled from the spec: a report identifier obtained by stripping
all of the separator characters hyphen, colon and space from the
timestamp (the claim C6 reading of the identifier derivation). -/
def specStrippedId (ts : String) : String :=
  String.mk (ts.data.filter (fun c => !(c == '-') && !(c == ':') && !(c == ' ')))

/-- Suffix test on character lists. -/
def endsWithL (s pat : List Char) : Bool :=
  pat.isPrefixOf (s.drop (s.length - pat.length))

set_option maxRecDepth 10000 in
/-- Counterexample to C6: at the timestamp `2025-01-02 03:04:05` the
message does not end with the identifier obtained by stripping hyphen,
colon and space (`CVC-20250102030405`), because the code replaces the
space with a hyphen instead of deleting it, producing
`CVC-20250102-030405`. -/
theorem claim6_counterexample :
    endsWithL
        (format_telegram_message
          { category := "other", priority := "medium", location := "Location not specified",
            summary := "", full_transcript := "" }
          none "2025-01-02 03:04:05").data
        ("*Report ID: CVC-" ++ specStrippedId "2025-01-02 03:04:05" ++ "*").data = false := by
  decide

/-- Amended C6: for every report, metadata and timestamp the message
ends with a report-identifier line whose identifier is derived from the
timestamp by deleting the hyphens and colons and replacing the space
with a hyphen, prefixed with the fixed literal tag `CVC-`. -/
theorem claim6_report_id_suffix (r : CivicReport) (md : Option (List (String × String)))
    (ts : String) :
    ∃ pre, format_telegram_message r md ts
      = pre ++ ("\n*Report ID: CVC-" ++ reportId ts ++ "*") := by
  have hsplit : ("---\n*Report ID: CVC-" : String) = "---" ++ "\n*Report ID: CVC-" := by
    decide
  refine ⟨msgHeader ++ (category_emoji r.category ++ " **Category:** " ++ strTitle r.category
    ++ "\n" ++ priority_emoji r.priority ++ " **Priority:** " ++ strTitle r.priority ++ "\n"
    ++ "📍 **Location:** " ++ r.location ++ "\n" ++ "🕒 **Received:** " ++ ts ++ "\n\n"
    ++ "📞 **Report Summary:**\n" ++ r.summary ++ "\n\n"
    ++ durationLine md ++ "\n" ++ callerLine md ++ "\n\n" ++ "---"), ?_⟩
  rw [format_eq_core]
  simp only [msgBody]
  rw [hsplit]
  simp only [str_assoc]

end Civic
